import Mathlib

/-!
Verification development for the `template-backend` repository: a shallow
embedding of the customer-record CRUD service (backend/app/api/customers.py,
backend/app/db.py, app/firebase_utils.py, app/run.py) together with theorems
settling the specification claims about it.

Conventions of the embedding:
* JSON / Firestore field values relevant to the claims are strings or null,
  modelled by `Val`; a Firestore document and a JSON body are association
  lists `Dict` with Python-dict update semantics.
* The Firestore collection is a `Store`: an association list from document id
  to document.
* Effects are passed explicitly: `now` stands for `datetime.now().isoformat()`
  at the time of the request, a fresh uuid is a `cid` parameter, and a storage
  exception raised by the client library is an `Option String` / `FbResult`
  parameter carrying the exception message (`none` = no exception).
-/

namespace TemplateBackend

/-- A JSON/Firestore field value as used by the customer records: a string or
Python `None` (JSON null). -/
inductive Val where
  | s (v : String)
  | null
deriving DecidableEq, Repr

/-- A Python dict with string keys (a Firestore document / JSON object). -/
abbrev Dict := List (String × Val)

namespace Dict

/-- `d.get(k)` on a Python dict (no default): the value at the first matching
key, if present. -/
def get? (d : Dict) (k : String) : Option Val :=
  match d with
  | [] => none
  | p :: rest => if p.1 = k then some p.2 else get? rest k

/-- `d[k] = v` on a Python dict / a single-field Firestore merge: replace the
value at `k` if the key is present, otherwise append the pair. -/
def set (d : Dict) (k : String) (v : Val) : Dict :=
  match d with
  | [] => [(k, v)]
  | p :: rest => if p.1 = k then (k, v) :: rest else p :: set rest k v

/-- Firestore `document.update(upd)`: merge every key of `upd` into `d`
(left to right). -/
def updateWith (d : Dict) (upd : Dict) : Dict :=
  match upd with
  | [] => d
  | (k, v) :: rest => updateWith (set d k v) rest

@[simp] theorem get?_nil (k : String) : get? [] k = none := rfl

theorem get?_set_self (d : Dict) (k : String) (v : Val) :
    (set d k v).get? k = some v := by
  induction d with
  | nil => simp [set, get?]
  | cons p rest ih =>
      by_cases h : p.1 = k
      · simp [set, h, get?]
      · simp [set, h, get?, ih]

theorem get?_set_ne (d : Dict) (k k' : String) (v : Val) (h : k' ≠ k) :
    (set d k v).get? k' = d.get? k' := by
  have hkk' : ¬ (k = k') := fun hh => h hh.symm
  induction d with
  | nil => simp [set, get?, hkk']
  | cons p rest ih =>
      by_cases hp : p.1 = k
      · have hpk' : ¬ (p.1 = k') := by rw [hp]; exact hkk'
        simp [set, hp, get?, hkk', hpk']
      · by_cases hp' : p.1 = k'
        · simp [set, hp, get?, hp', hkk', h]
        · simp [set, hp, get?, hp', ih]

end Dict

/-- The `customers` Firestore collection: document id ↦ document, in
store-defined order. -/
abbrev Store := List (String × Dict)

namespace Store

/-- `db.collection("customers").document(cid).get()`: the stored document, if
it exists. -/
def get (s : Store) (cid : String) : Option Dict :=
  match s with
  | [] => none
  | p :: rest => if p.1 = cid then some p.2 else get rest cid

/-- `document(cid).set(d)` (also used for a full-document merge result):
replace the document at `cid`, or create it. -/
def set (s : Store) (cid : String) (d : Dict) : Store :=
  match s with
  | [] => [(cid, d)]
  | p :: rest => if p.1 = cid then (cid, d) :: rest else p :: set rest cid d

/-- `document(cid).delete()`: remove the document with id `cid`. -/
def del (s : Store) (cid : String) : Store :=
  s.filter (fun p => p.1 ≠ cid)

theorem get_set_self (s : Store) (cid : String) (d : Dict) :
    (set s cid d).get cid = some d := by
  induction s with
  | nil => simp [set, get]
  | cons p rest ih =>
      by_cases h : p.1 = cid
      · simp [set, h, get]
      · simp [set, h, get, ih]

theorem get_del_self (s : Store) (cid : String) :
    (del s cid).get cid = none := by
  induction s with
  | nil => simp [del, get]
  | cons p rest ih =>
      by_cases h : p.1 = cid
      · simpa [del, h] using ih
      · simpa [del, h, get] using ih

end Store

/-! ## Customer model (backend/app/api/customers.py, lines 16–52) -/

/-- `x or default` for a Python `Optional[str]`: `None` and `""` are falsy. -/
def strOr (x : Option String) (default : String) : String :=
  match x with
  | none => default
  | some s => if s = "" then default else s

/-- `str(x)` applied to `data.get(k, "")`: an absent key gives `""`, a stored
string gives itself, a stored `None` gives `"None"` (Python `str(None)`). -/
def pyStr (x : Option Val) : String :=
  match x with
  | none => ""
  | some (.s v) => v
  | some .null => "None"

/-- `data.get(k)` read as a Python `Optional[str]`: absent and null both give
`None`. -/
def valToOptStr (x : Option Val) : Option String :=
  match x with
  | some (.s v) => some v
  | _ => none

/-- A Python `Optional[str]` stored as a JSON value: `None` becomes null. -/
def optVal (x : Option String) : Val :=
  match x with
  | some s => .s s
  | none => .null

/-- The in-memory `Customer` object (customers.py lines 16–24). -/
structure Customer where
  id : String
  first_name : String
  last_name : String
  email : Option String
  created_at : String
  updated_at : String
deriving DecidableEq, Repr

/-- `Customer.__init__` (customers.py lines 17–24): missing or falsy
`created_at`/`updated_at` default to `datetime.now().isoformat()`, passed here
as `now`. -/
def Customer.mkInit (now id first_name last_name : String) (email : Option String)
    (created_at updated_at : Option String) : Customer :=
  { id := id
    first_name := first_name
    last_name := last_name
    email := email
    created_at := strOr created_at now
    updated_at := strOr updated_at now }

/-- `Customer.from_dict` (customers.py lines 26–35). -/
def Customer.from_dict (now id : String) (data : Dict) : Customer :=
  Customer.mkInit now id
    (pyStr (data.get? "first_name"))
    (pyStr (data.get? "last_name"))
    (valToOptStr (data.get? "email"))
    (valToOptStr (data.get? "created_at"))
    (valToOptStr (data.get? "updated_at"))

/-- `Customer.to_dict` (customers.py lines 37–45). -/
def Customer.to_dict (c : Customer) : Dict :=
  [("id", .s c.id),
   ("first_name", .s c.first_name),
   ("last_name", .s c.last_name),
   ("email", optVal c.email),
   ("created_at", .s c.created_at),
   ("updated_at", .s c.updated_at)]

/-- The parsed `CustomerCreate` pydantic model (customers.py lines 49–52). -/
structure CustomerCreate where
  first_name : String
  last_name : String
  email : Option String
deriving DecidableEq, Repr

/-- `fastapi.HTTPException`: status code and detail string. -/
structure HTTPException where
  status_code : Nat
  detail : String
deriving DecidableEq, Repr

/-- A raw JSON request body for the create/update endpoints. Each field is
absent or a value; `id` and `created_at` stand for extra keys a caller may
supply — pydantic ignores keys that are not fields of `CustomerCreate`. -/
structure RawCreateBody where
  first_name : Option Val
  last_name : Option Val
  email : Option Val
  id : Option Val
  created_at : Option Val
deriving DecidableEq, Repr

/-- FastAPI body validation against `CustomerCreate`: `first_name` and
`last_name` must be present strings (missing or null fails with 422);
`email` is optional — absent or null parse to `None`; the empty string is a
valid `str`; extra keys (`id`, `created_at`) are ignored. -/
def parseCustomerCreate (b : RawCreateBody) : Except HTTPException CustomerCreate :=
  match b.first_name, b.last_name with
  | some (.s fn), some (.s ln) =>
      .ok { first_name := fn, last_name := ln, email := valToOptStr b.email }
  | _, _ => .error { status_code := 422, detail := "field required" }

/-! ## Backend endpoints (backend/app/api/customers.py, lines 55–160)

Each handler is a pure function of the request, the collection contents, the
current time `now`, and an optional storage exception `fail` (the message of
an exception raised by the Firestore client during the operation; `none` means
the storage calls succeed). A raised exception is caught by the handler's
`except Exception` clause and turned into a 500 `HTTPException` whose detail
interpolates `str(e)`; the store is left unchanged in that case. -/

/-- An outcome of a Firestore client call: a value or a raised exception. -/
inductive FbResult (α : Type) where
  | ok (a : α)
  | err (msg : String)
deriving DecidableEq, Repr

/-- `GET /api/customers/` (customers.py lines 55–68): stream every document,
build a `Customer` from each via `from_dict` (id from the storage key) and
return the dicts; any exception becomes a 500 embedding `str(e)`. -/
def bk_get_customers (now : String) (stream : FbResult (List (String × Dict))) :
    Except HTTPException (List Dict) :=
  match stream with
  | .ok docs =>
      .ok (docs.map (fun p => (Customer.from_dict now p.1 p.2).to_dict))
  | .err e =>
      .error { status_code := 500, detail := "Error retrieving customers: " ++ e }

/-- `GET /api/customers/{id}` (customers.py lines 71–85). -/
def bk_get_customer (now : String) (store : Store) (cid : String)
    (fail : Option String) : Except HTTPException Dict :=
  match fail with
  | some e =>
      .error { status_code := 500, detail := "Error retrieving customer: " ++ e }
  | none =>
      match store.get cid with
      | none =>
          .error { status_code := 404
                   detail := "Customer with ID " ++ cid ++ " not found" }
      | some d => .ok ((Customer.from_dict now cid d).to_dict)

/-- `POST /api/customers/` body of the handler (customers.py lines 88–113),
after body validation: `cid` is the generated `str(uuid.uuid4())`, `now` the
single `datetime.now().isoformat()`; the record is stored under key `cid` with
the `"id"` key filtered out of the payload. Returns the response dict and the
resulting store. -/
def bk_create_customer (now cid : String) (store : Store) (c : CustomerCreate)
    (fail : Option String) : Except HTTPException (Dict × Store) :=
  match fail with
  | some e =>
      .error { status_code := 500, detail := "Error creating customer: " ++ e }
  | none =>
      let nc := Customer.mkInit now cid c.first_name c.last_name c.email
        (some now) (some now)
      let payload := nc.to_dict.filter (fun p => p.1 ≠ "id")
      .ok (nc.to_dict, store.set cid payload)

/-- `POST /api/customers/` including FastAPI body validation. -/
def bk_create_endpoint (now cid : String) (store : Store) (b : RawCreateBody)
    (fail : Option String) : Except HTTPException (Dict × Store) :=
  match parseCustomerCreate b with
  | .error e => .error e
  | .ok c => bk_create_customer now cid store c fail

/-- The `updated_customer` local of the update handler (customers.py lines
128–132): the stored document rebuilt via `from_dict`, with `first_name`,
`last_name` and `email` overwritten from the input and `updated_at` recomputed
to the current time. -/
def updatedCustomer (now cid : String) (d : Dict) (c : CustomerCreate) :
    Customer :=
  { Customer.from_dict now cid d with
    first_name := c.first_name
    last_name := c.last_name
    email := c.email
    updated_at := now }

/-- `PUT /api/customers/{id}` body of the handler (customers.py lines
116–141), after body validation: rebuild the `Customer` from the stored
document, overwrite `first_name`, `last_name` and `email` with the input
values, recompute `updated_at`, and `doc_ref.update` the non-`"id"` keys into
the stored document. -/
def bk_update_customer (now : String) (store : Store) (cid : String)
    (c : CustomerCreate) (fail : Option String) :
    Except HTTPException (Dict × Store) :=
  match fail with
  | some e =>
      .error { status_code := 500, detail := "Error updating customer: " ++ e }
  | none =>
      match store.get cid with
      | none =>
          .error { status_code := 404
                   detail := "Customer with ID " ++ cid ++ " not found" }
      | some d =>
          let uc := updatedCustomer now cid d c
          let upd := uc.to_dict.filter (fun p => p.1 ≠ "id")
          .ok (uc.to_dict, store.set cid (d.updateWith upd))

/-- `PUT /api/customers/{id}` including FastAPI body validation. -/
def bk_update_endpoint (now : String) (store : Store) (cid : String)
    (b : RawCreateBody) (fail : Option String) :
    Except HTTPException (Dict × Store) :=
  match parseCustomerCreate b with
  | .error e => .error e
  | .ok c => bk_update_customer now store cid c fail

/-- `DELETE /api/customers/{id}` (customers.py lines 144–160). Returns the
error, if any, together with the resulting store (unchanged on error). -/
def bk_delete_customer (store : Store) (cid : String) (fail : Option String) :
    Option HTTPException × Store :=
  match fail with
  | some e =>
      (some { status_code := 500, detail := "Error deleting customer: " ++ e }, store)
  | none =>
      match store.get cid with
      | none =>
          (some { status_code := 404
                  detail := "Customer with ID " ++ cid ++ " not found" }, store)
      | some _ => (none, store.del cid)

/-! ## Storage gateway (backend/app/db.py, lines 5–80)

`get_db` is modelled as the choice of credential source it makes, as a
function of the observable environment: whether a Firebase app already exists
(`get_app()` succeeds), which credential files exist, the
`GOOGLE_APPLICATION_CREDENTIALS` variable, and whether each
`credentials.Certificate` + `initialize_app` attempt succeeds (on such a
failure the code falls back to `initialize_app()` with default credentials). -/

/-- The environment observed by `get_db`. -/
structure DbEnv where
  /-- `get_app()` returns an existing app instead of raising `ValueError`. -/
  appExists : Bool
  /-- `os.path.exists("secrets/firebase-admin-key-{env}.json")`. -/
  primaryExists : Bool
  /-- `os.path.exists("/secrets/firebase-admin-key-{env}.json")`. -/
  cloudRunExists : Bool
  /-- `os.environ.get("GOOGLE_APPLICATION_CREDENTIALS")`. -/
  adcPath : Option String
  /-- `os.path.exists(adc_path)`. -/
  adcExists : Bool
  /-- Loading the primary certificate and initializing the app succeeds. -/
  initPrimaryOk : Bool
  /-- Loading the Cloud Run certificate and initializing the app succeeds. -/
  initCloudRunOk : Bool
  /-- Loading the ADC certificate and initializing the app succeeds. -/
  initAdcOk : Bool
deriving DecidableEq, Repr

/-- Which credential source `get_db` ends up using. -/
inductive CredSource where
  /-- The already-initialized app is reused (no reinitialization). -/
  | existing
  /-- `secrets/firebase-admin-key-{env}.json`. -/
  | primary
  /-- `/secrets/firebase-admin-key-{env}.json`. -/
  | cloudRun
  /-- The path in `GOOGLE_APPLICATION_CREDENTIALS`. -/
  | adc
  /-- `initialize_app()` with ambient default credentials. -/
  | defaultCreds
deriving DecidableEq, Repr

/-- `get_db` (db.py lines 5–80): reuse the existing app if any; otherwise try
the primary secrets path, then the Cloud Run mount path, then the
`GOOGLE_APPLICATION_CREDENTIALS` path (only when set to a non-empty string
naming an existing file), then default credentials; a certificate that fails
to load falls back to default credentials. -/
def get_db (e : DbEnv) : CredSource :=
  if e.appExists then .existing
  else if e.primaryExists then
    (if e.initPrimaryOk then .primary else .defaultCreds)
  else if e.cloudRunExists then
    (if e.initCloudRunOk then .cloudRun else .defaultCreds)
  else
    match e.adcPath with
    | some p =>
        if p ≠ "" ∧ e.adcExists = true then
          (if e.initAdcOk then .adc else .defaultCreds)
        else .defaultCreds
    | none => .defaultCreds

/-! ## Firestore helpers (app/firebase_utils.py, lines 52–174)

Each helper first calls `initialize_firebase()`, whose result is the `db`
parameter (`none` = initialization failed and the helper returns its sentinel).
`fail` is the message of an exception raised by the Firestore call itself
(`none` = the call succeeds); the whole body is wrapped in
`try/except Exception`, which returns the sentinel. -/

/-- `create_customer` (firebase_utils.py lines 52–73): `add` stores the data
under a store-generated id (`newId`) and returns it; `None` on any failure. -/
def fb_create_customer (db : Option Unit) (store : Store) (newId : String)
    (data : Dict) (fail : Option String) : Option String × Store :=
  match db with
  | none => (none, store)
  | some _ =>
      match fail with
      | some _ => (none, store)
      | none => (some newId, store.set newId data)

/-- `get_customer` (firebase_utils.py lines 75–99): the stored dict if the
document exists, `None` otherwise or on any failure. -/
def fb_get_customer (db : Option Unit) (store : Store) (cid : String)
    (fail : Option String) : Option Dict :=
  match db with
  | none => none
  | some _ =>
      match fail with
      | some _ => none
      | none => store.get cid

/-- `update_customer` (firebase_utils.py lines 101–144): Firestore
`document.update` raises `ValueError` on an empty update map and raises
`NotFound` when the document does not exist (both caught, `False`); otherwise
it merges the given keys into the stored document; `False` on any other
failure. -/
def fb_update_customer (db : Option Unit) (store : Store) (cid : String)
    (data : Dict) (fail : Option String) : Bool × Store :=
  match db with
  | none => (false, store)
  | some _ =>
      match fail with
      | some _ => (false, store)
      | none =>
          if data = [] then (false, store)
          else
            match store.get cid with
            | none => (false, store)
            | some d => (true, store.set cid (d.updateWith data))

/-- `delete_customer` (firebase_utils.py lines 124–144): Firestore
`document.delete` succeeds whether or not the document exists; `False` on any
failure. -/
def fb_delete_customer (db : Option Unit) (store : Store) (cid : String)
    (fail : Option String) : Bool × Store :=
  match db with
  | none => (false, store)
  | some _ =>
      match fail with
      | some _ => (false, store)
      | none => (true, store.del cid)

/-- Firestore query semantics of `collection.limit(n).stream()` (external
collaborator): at most `n` documents, in store-defined order — here the
order of the `Store` list. -/
def fb_query_take (coll : List (String × Dict)) (limit : Nat) :
    List (String × Dict) :=
  coll.take limit

/-- `list_customers` (firebase_utils.py lines 146–174): stream up to `limit`
documents, set each dict's `'id'` key to the document id; `[]` on any
failure. -/
def fb_list_customers (db : Option Unit) (coll : List (String × Dict))
    (limit : Nat) (streamFail : Option String) : List Dict :=
  match db with
  | none => []
  | some _ =>
      match streamFail with
      | some _ => []
      | none => (fb_query_take coll limit).map (fun p => p.2.set "id" (.s p.1))

/-! ## run.py customer update endpoint (app/run.py, lines 233–261) -/

/-- The `CustomerUpdate` pydantic model of run.py (lines 96–107): every field
optional. The `address` payload (a JSON object in the source) is opaque to the
claims and modelled as a string. -/
structure RunCustomerUpdate where
  name : Option String
  email : Option String
  phone : Option String
  address : Option String
deriving DecidableEq, Repr

/-- `customer_update.dict()`: all four fields, `None` as null. -/
def RunCustomerUpdate.dictAll (u : RunCustomerUpdate) : Dict :=
  [("name", optVal u.name), ("email", optVal u.email),
   ("phone", optVal u.phone), ("address", optVal u.address)]

/-- `{k: v for k, v in customer_update.dict().items() if v is not None}`
(run.py line 242). -/
def RunCustomerUpdate.update_data (u : RunCustomerUpdate) : Dict :=
  u.dictAll.filter (fun p => p.2 ≠ Val.null)

/-- `PUT /api/customer/{id}` (run.py lines 233–261): the existence check is
`if not existing_customer:` — Python truthiness, so both a `None` lookup and
an existing but empty stored dict (`\x7b\x7d` is falsy) yield the 404.
Otherwise the non-null fields are merged via `update_customer` (500 when it
reports failure), the record is re-fetched, and the fetched dict is returned
with its `id` key set (a falsy re-fetch yields `result = \x7b\x7d` before the
id is added). -/
def run_update_customer_endpoint (db : Option Unit) (store : Store)
    (cid : String) (u : RunCustomerUpdate)
    (getFail updFail refetchFail : Option String) :
    Except HTTPException (Dict × Store) :=
  match fb_get_customer db store cid getFail with
  | none =>
      .error { status_code := 404
               detail := "Customer with ID " ++ cid ++ " not found" }
  | some d0 =>
      if d0 = [] then
        .error { status_code := 404
                 detail := "Customer with ID " ++ cid ++ " not found" }
      else
        let r := fb_update_customer db store cid u.update_data updFail
        if r.1 then
          let updated := (fb_get_customer db r.2 cid refetchFail).getD []
          .ok (updated.set "id" (.s cid), r.2)
        else
          .error { status_code := 500, detail := "Failed to update customer" }

/-- Whether the character list `s` starts with `pat`. -/
def charsStartWith : List Char → List Char → Bool
  | _, [] => true
  | [], _ :: _ => false
  | c :: cs, p :: ps => c = p && charsStartWith cs ps

/-- Whether `pat` occurs as a contiguous sublist of `s`. -/
def charsHaveSub : List Char → List Char → Bool
  | [], pat => charsStartWith [] pat
  | c :: cs, pat => charsStartWith (c :: cs) pat || charsHaveSub cs pat

/-- Whether `pat` occurs as a substring of `s`. -/
def strContains (s pat : String) : Bool :=
  charsHaveSub s.data pat.data

/-! ## Helper lemmas -/

theorem strOr_some_self (x : String) : strOr (some x) x = x := by
  simp [strOr]

theorem to_dict_get?_id (c : Customer) :
    c.to_dict.get? "id" = some (.s c.id) := rfl

theorem to_dict_get?_first_name (c : Customer) :
    c.to_dict.get? "first_name" = some (.s c.first_name) := rfl

theorem to_dict_get?_last_name (c : Customer) :
    c.to_dict.get? "last_name" = some (.s c.last_name) := rfl

theorem to_dict_get?_email (c : Customer) :
    c.to_dict.get? "email" = some (optVal c.email) := rfl

theorem to_dict_get?_created_at (c : Customer) :
    c.to_dict.get? "created_at" = some (.s c.created_at) := rfl

theorem to_dict_get?_updated_at (c : Customer) :
    c.to_dict.get? "updated_at" = some (.s c.updated_at) := rfl

/-- The payload stored by create/update: `to_dict` with the `"id"` key
filtered out. -/
theorem filter_to_dict (c : Customer) :
    c.to_dict.filter (fun p => p.1 ≠ "id") =
      [("first_name", .s c.first_name), ("last_name", .s c.last_name),
       ("email", optVal c.email), ("created_at", .s c.created_at),
       ("updated_at", .s c.updated_at)] := rfl

theorem payload_get?_id (c : Customer) :
    Dict.get? (c.to_dict.filter (fun p => p.1 ≠ "id")) "id" = none := rfl

theorem payload_get?_first_name (c : Customer) :
    Dict.get? (c.to_dict.filter (fun p => p.1 ≠ "id")) "first_name"
      = some (.s c.first_name) := rfl

theorem payload_get?_last_name (c : Customer) :
    Dict.get? (c.to_dict.filter (fun p => p.1 ≠ "id")) "last_name"
      = some (.s c.last_name) := rfl

theorem payload_get?_created_at (c : Customer) :
    Dict.get? (c.to_dict.filter (fun p => p.1 ≠ "id")) "created_at"
      = some (.s c.created_at) := rfl

theorem payload_get?_updated_at (c : Customer) :
    Dict.get? (c.to_dict.filter (fun p => p.1 ≠ "id")) "updated_at"
      = some (.s c.updated_at) := rfl

theorem payload_get?_email (c : Customer) :
    Dict.get? (c.to_dict.filter (fun p => p.1 ≠ "id")) "email"
      = some (optVal c.email) := rfl

/-- A key absent from `upd` is untouched by `updateWith`. -/
theorem Dict.get?_updateWith_absent (upd : Dict) (d : Dict) (k : String)
    (h : Dict.get? upd k = none) :
    Dict.get? (d.updateWith upd) k = Dict.get? d k := by
  induction upd generalizing d with
  | nil => rfl
  | cons p rest ih =>
      have hp : ¬ (p.1 = k) := by
        intro hh
        simp [Dict.get?, hh] at h
      have hr : Dict.get? rest k = none := by
        simpa [Dict.get?, hp] using h
      have hset : Dict.get? (Dict.set d p.1 p.2) k = Dict.get? d k :=
        Dict.get?_set_ne d p.1 k p.2 (fun hh => hp hh.symm)
      calc Dict.get? (d.updateWith (p :: rest)) k
          = Dict.get? ((Dict.set d p.1 p.2).updateWith rest) k := rfl
        _ = Dict.get? (Dict.set d p.1 p.2) k := ih (Dict.set d p.1 p.2) hr
        _ = Dict.get? d k := hset

/-- A dict lookup on a key the dict does not hold is `none`. -/
theorem Dict.get?_eq_none_of_not_mem (d : Dict) (k : String)
    (h : k ∉ d.map Prod.fst) :
    Dict.get? d k = none := by
  induction d with
  | nil => rfl
  | cons p rest ih =>
      have h1 : ¬ (p.1 = k) := fun hh => h (by simp [hh.symm])
      have h2 : k ∉ rest.map Prod.fst := fun hh => h (by simp [hh])
      simp [Dict.get?, h1, ih h2]

/-- When the keys of `upd` are distinct, `updateWith` writes exactly the value
`upd` holds for a key it contains. -/
theorem Dict.get?_updateWith_present (upd : Dict) (d : Dict) (k : String)
    (v : Val) (hnd : (upd.map Prod.fst).Nodup) (h : Dict.get? upd k = some v) :
    Dict.get? (d.updateWith upd) k = some v := by
  induction upd generalizing d with
  | nil => simp [Dict.get?] at h
  | cons p rest ih =>
      rw [List.map_cons, List.nodup_cons] at hnd
      by_cases hp : p.1 = k
      · have hv : v = p.2 := by
          simp [Dict.get?, hp] at h
          exact h.symm
        subst hv
        subst hp
        have hr : Dict.get? rest p.1 = none :=
          Dict.get?_eq_none_of_not_mem rest p.1 hnd.1
        calc Dict.get? (d.updateWith (p :: rest)) p.1
            = Dict.get? ((Dict.set d p.1 p.2).updateWith rest) p.1 := rfl
          _ = Dict.get? (Dict.set d p.1 p.2) p.1 :=
              Dict.get?_updateWith_absent rest _ p.1 hr
          _ = some p.2 := Dict.get?_set_self d p.1 p.2
      · have hr : Dict.get? rest k = some v := by
          simpa [Dict.get?, hp] using h
        exact ih (Dict.set d p.1 p.2) hnd.2 hr

/-- A five-customer collection used as the concrete List scenario. -/
def exColl5 : List (String × Dict) :=
  [("a1", [("first_name", .s "A")]), ("a2", [("first_name", .s "B")]),
   ("a3", [("first_name", .s "C")]), ("a4", [("first_name", .s "D")]),
   ("a5", [("first_name", .s "E")])]

/-! ## Claim theorems -/

/-- C2: for every collection contents and every limit, `list_customers` returns
at most `limit` records (exactly `limit` when the collection is at least that
large, so a 5-customer store with limit 2 yields exactly 2), and every returned
element carries its `id` populated from the storage key. -/
theorem C2_list_limit (coll : List (String × Dict)) (limit : Nat) :
    (fb_list_customers (some ()) coll limit none).length = min limit coll.length ∧
    ∀ d ∈ fb_list_customers (some ()) coll limit none,
      ∃ k pd, (k, pd) ∈ fb_query_take coll limit ∧
        d = pd.set "id" (.s k) ∧ Dict.get? d "id" = some (.s k) := by
  constructor
  · simp [fb_list_customers, fb_query_take]
  · intro d hd
    simp only [fb_list_customers, List.mem_map] at hd
    obtain ⟨p, hp, rfl⟩ := hd
    exact ⟨p.1, p.2, hp, rfl, Dict.get?_set_self _ _ _⟩

/-- C2 witness: the concrete scenario — `list_customers` with limit 2 against
a store of 5 customers returns exactly 2 records. -/
theorem C2_list_limit_witness :
    (fb_list_customers (some ()) exColl5 2 none).length = 2 := by
  have h := (C2_list_limit exColl5 2).1
  simpa [exColl5] using h

/-- C7: `get_db` is idempotent (an existing app is reused without
reinitialization), and otherwise the credential sources are tried in the fixed
priority order — primary secrets file, Cloud Run mount, the
`GOOGLE_APPLICATION_CREDENTIALS` path, ambient default credentials — with the
first successful source used and later options never consulted (the conclusion
of each branch holds for every value of the lower-priority fields). -/
theorem C7_get_db_priority (e : DbEnv) :
    (e.appExists = true → get_db e = .existing) ∧
    (e.appExists = false → e.primaryExists = true → e.initPrimaryOk = true →
      get_db e = .primary) ∧
    (e.appExists = false → e.primaryExists = false → e.cloudRunExists = true →
      e.initCloudRunOk = true → get_db e = .cloudRun) ∧
    (∀ p, e.appExists = false → e.primaryExists = false →
      e.cloudRunExists = false → e.adcPath = some p → p ≠ "" →
      e.adcExists = true → e.initAdcOk = true → get_db e = .adc) ∧
    (e.appExists = false → e.primaryExists = false → e.cloudRunExists = false →
      e.adcPath = none → get_db e = .defaultCreds) := by
  refine ⟨?_, ?_, ?_, ?_, ?_⟩
  · intro h1
    simp [get_db, h1]
  · intro h1 h2 h3
    simp [get_db, h1, h2, h3]
  · intro h1 h2 h3 h4
    simp [get_db, h1, h2, h3, h4]
  · intro p h1 h2 h3 h4 h5 h6 h7
    simp [get_db, h1, h2, h3, h4, h5, h6, h7]
  · intro h1 h2 h3 h4
    simp [get_db, h1, h2, h3, h4]

/-- C7 witness: concrete environments exercising the existing-app branch and
the primary-credential branch. -/
theorem C7_get_db_priority_witness :
    get_db ⟨true, false, false, none, false, false, false, false⟩
        = .existing ∧
    get_db ⟨false, true, true, some "/adc.json", true, true, true, true⟩
        = .primary := by
  constructor
  · exact (C7_get_db_priority _).1 rfl
  · exact (C7_get_db_priority _).2.1 rfl rfl rfl

/-- C9: `Customer.from_dict` is total on every stored payload (it returns a
`Customer` for any `Dict`), and on a payload lacking a field it coerces missing
`first_name`/`last_name` to `""`, missing `email` to `None`, and missing
timestamps to the current time, with the `id` taken from the lookup key. -/
theorem C9_from_dict_defaults (now id : String) (data : Dict)
    (h1 : Dict.get? data "first_name" = none)
    (h2 : Dict.get? data "last_name" = none)
    (h3 : Dict.get? data "email" = none)
    (h4 : Dict.get? data "created_at" = none)
    (h5 : Dict.get? data "updated_at" = none) :
    (Customer.from_dict now id data).first_name = "" ∧
    (Customer.from_dict now id data).last_name = "" ∧
    (Customer.from_dict now id data).email = none ∧
    (Customer.from_dict now id data).created_at = now ∧
    (Customer.from_dict now id data).updated_at = now ∧
    (Customer.from_dict now id data).id = id := by
  simp [Customer.from_dict, Customer.mkInit, h1, h2, h3, h4, h5, pyStr,
    valToOptStr, strOr]

/-- C9 witness: `from_dict` on the empty payload yields the defaulted
customer. -/
theorem C9_from_dict_defaults_witness :
    (Customer.from_dict "t9" "x9" []).first_name = "" ∧
    (Customer.from_dict "t9" "x9" []).last_name = "" ∧
    (Customer.from_dict "t9" "x9" []).email = none ∧
    (Customer.from_dict "t9" "x9" []).created_at = "t9" ∧
    (Customer.from_dict "t9" "x9" []).updated_at = "t9" ∧
    (Customer.from_dict "t9" "x9" []).id = "x9" :=
  C9_from_dict_defaults "t9" "x9" [] rfl rfl rfl rfl rfl

/-- C10: every firebase_utils storage helper is total at its interface and
returns its sentinel — `None` for create/get, `False` for update/delete, `[]`
for list — both when `initialize_firebase` yields no client and when the
Firestore call raises; no exception propagates (the return types are total). -/
theorem C10_sentinels (store : Store) (coll : List (String × Dict))
    (newId cid : String) (data : Dict) (msg : String) (limit : Nat)
    (fail : Option String) :
    (fb_create_customer none store newId data fail).1 = none ∧
    (fb_create_customer (some ()) store newId data (some msg)).1 = none ∧
    fb_get_customer none store cid fail = none ∧
    fb_get_customer (some ()) store cid (some msg) = none ∧
    (fb_update_customer none store cid data fail).1 = false ∧
    (fb_update_customer (some ()) store cid data (some msg)).1 = false ∧
    (fb_delete_customer none store cid fail).1 = false ∧
    (fb_delete_customer (some ()) store cid (some msg)).1 = false ∧
    fb_list_customers none coll limit fail = [] ∧
    fb_list_customers (some ()) coll limit (some msg) = [] :=
  ⟨rfl, rfl, rfl, rfl, rfl, rfl, rfl, rfl, rfl, rfl⟩

/-- C5: a successful create under a fresh id returns the full customer dict —
`id` included, `created_at = updated_at = now` — and persists the record under
the key `cid` with the `id` key excluded from the stored payload. -/
theorem C5_create (now cid : String) (store : Store) (c : CustomerCreate)
    (_hfresh : store.get cid = none) :
    ∃ ret s2,
      bk_create_customer now cid store c none = .ok (ret, s2) ∧
      Dict.get? ret "id" = some (.s cid) ∧
      Dict.get? ret "first_name" = some (.s c.first_name) ∧
      Dict.get? ret "last_name" = some (.s c.last_name) ∧
      Dict.get? ret "email" = some (optVal c.email) ∧
      Dict.get? ret "created_at" = some (.s now) ∧
      Dict.get? ret "updated_at" = some (.s now) ∧
      ∃ payload, s2.get cid = some payload ∧
        Dict.get? payload "id" = none ∧
        Dict.get? payload "first_name" = some (.s c.first_name) ∧
        Dict.get? payload "created_at" = some (.s now) ∧
        Dict.get? payload "updated_at" = some (.s now) := by
  refine ⟨(Customer.mkInit now cid c.first_name c.last_name c.email
      (some now) (some now)).to_dict,
    store.set cid ((Customer.mkInit now cid c.first_name c.last_name c.email
      (some now) (some now)).to_dict.filter (fun p => p.1 ≠ "id")),
    rfl, rfl, rfl, rfl, rfl, ?_, ?_, _, Store.get_set_self _ _ _,
    payload_get?_id _, payload_get?_first_name _, ?_, ?_⟩
  · simp [to_dict_get?_created_at, Customer.mkInit, strOr]
  · simp [to_dict_get?_updated_at, Customer.mkInit, strOr]
  · rw [payload_get?_created_at]
    simp [Customer.mkInit, strOr]
  · rw [payload_get?_updated_at]
    simp [Customer.mkInit, strOr]

/-- C5 witness: a concrete create against the empty store. -/
theorem C5_create_witness :
    ∃ ret s2,
      bk_create_customer "t5" "u5" [] ⟨"Jane", "Doe", some "jane@x.com"⟩ none
        = .ok (ret, s2) ∧
      Dict.get? ret "id" = some (.s "u5") ∧
      Dict.get? ret "first_name" = some (.s "Jane") ∧
      Dict.get? ret "last_name" = some (.s "Doe") ∧
      Dict.get? ret "email" = some (optVal (some "jane@x.com")) ∧
      Dict.get? ret "created_at" = some (.s "t5") ∧
      Dict.get? ret "updated_at" = some (.s "t5") ∧
      ∃ payload, Store.get s2 "u5" = some payload ∧
        Dict.get? payload "id" = none ∧
        Dict.get? payload "first_name" = some (.s "Jane") ∧
        Dict.get? payload "created_at" = some (.s "t5") ∧
        Dict.get? payload "updated_at" = some (.s "t5") :=
  C5_create "t5" "u5" [] ⟨"Jane", "Doe", some "jane@x.com"⟩ rfl

/-- C6: delete on an absent id fails with 404 and leaves the store unchanged;
delete on an existing id removes the record permanently, after which a get of
the same id fails with 404 (no soft-delete, no resurrection). -/
theorem C6_delete_then_get (now : String) (store : Store) (cid : String) :
    (store.get cid = none →
      bk_delete_customer store cid none =
        (some { status_code := 404
                detail := "Customer with ID " ++ cid ++ " not found" }, store)) ∧
    (∀ d, store.get cid = some d →
      bk_delete_customer store cid none = (none, Store.del store cid) ∧
      Store.get (Store.del store cid) cid = none ∧
      bk_get_customer now (Store.del store cid) cid none =
        .error { status_code := 404
                 detail := "Customer with ID " ++ cid ++ " not found" }) := by
  constructor
  · intro h
    simp [bk_delete_customer, h]
  · intro d h
    refine ⟨by simp [bk_delete_customer, h], Store.get_del_self store cid, ?_⟩
    simp [bk_get_customer, Store.get_del_self]

/-- C6 witness: delete of a missing id 404s and leaves the store as it was;
delete of an existing id removes it and the subsequent get 404s. -/
theorem C6_delete_then_get_witness :
    bk_delete_customer [("c6", ([] : Dict))] "zz" none =
      (some { status_code := 404, detail := "Customer with ID zz not found" },
       [("c6", ([] : Dict))]) ∧
    bk_delete_customer [("c6", ([] : Dict))] "c6" none =
      (none, Store.del [("c6", ([] : Dict))] "c6") ∧
    bk_get_customer "t6" (Store.del [("c6", ([] : Dict))] "c6") "c6" none =
      .error { status_code := 404, detail := "Customer with ID c6 not found" } := by
  have h1 := (C6_delete_then_get "t6" [("c6", ([] : Dict))] "zz").1 rfl
  have h2 := (C6_delete_then_get "t6" [("c6", ([] : Dict))] "c6").2 [] rfl
  exact ⟨h1, h2.1, h2.2.2⟩

/-- The keys of an update payload are pairwise distinct. -/
theorem payload_keys_nodup (c : Customer) :
    ((c.to_dict.filter (fun p => p.1 ≠ "id")).map Prod.fst).Nodup := by
  rw [filter_to_dict]
  show (["first_name", "last_name", "email", "created_at",
    "updated_at"] : List String).Nodup
  decide

/-- A successful backend update returns the updated customer's dict and merges
its non-`id` fields into the stored document. -/
theorem bk_update_eq (now : String) (store : Store) (cid : String)
    (c : CustomerCreate) (d : Dict) (hd : store.get cid = some d) :
    bk_update_customer now store cid c none =
      .ok ((updatedCustomer now cid d c).to_dict,
        store.set cid (d.updateWith
          ((updatedCustomer now cid d c).to_dict.filter (fun p => p.1 ≠ "id")))) := by
  simp [bk_update_customer, hd]

theorem updatedCustomer_created_at (now cid : String) (d : Dict)
    (c : CustomerCreate) (ca : String)
    (hca : Dict.get? d "created_at" = some (.s ca)) (hne : ca ≠ "") :
    (updatedCustomer now cid d c).created_at = ca := by
  simp [updatedCustomer, Customer.from_dict, Customer.mkInit, hca,
    valToOptStr, strOr, hne]

theorem updatedCustomer_id (now cid : String) (d : Dict) (c : CustomerCreate) :
    (updatedCustomer now cid d c).id = cid := rfl

theorem updatedCustomer_updated_at (now cid : String) (d : Dict)
    (c : CustomerCreate) : (updatedCustomer now cid d c).updated_at = now := rfl

/-- The merged stored document after a successful backend update holds the
updated customer's field values. -/
theorem updated_doc_fields (d : Dict) (uc : Customer) :
    Dict.get? (d.updateWith (uc.to_dict.filter (fun p => p.1 ≠ "id")))
        "created_at" = some (.s uc.created_at) ∧
    Dict.get? (d.updateWith (uc.to_dict.filter (fun p => p.1 ≠ "id")))
        "updated_at" = some (.s uc.updated_at) ∧
    Dict.get? (d.updateWith (uc.to_dict.filter (fun p => p.1 ≠ "id")))
        "first_name" = some (.s uc.first_name) ∧
    Dict.get? (d.updateWith (uc.to_dict.filter (fun p => p.1 ≠ "id")))
        "last_name" = some (.s uc.last_name) ∧
    Dict.get? (d.updateWith (uc.to_dict.filter (fun p => p.1 ≠ "id")))
        "email" = some (optVal uc.email) :=
  ⟨Dict.get?_updateWith_present _ d _ _ (payload_keys_nodup uc)
      (payload_get?_created_at uc),
   Dict.get?_updateWith_present _ d _ _ (payload_keys_nodup uc)
      (payload_get?_updated_at uc),
   Dict.get?_updateWith_present _ d _ _ (payload_keys_nodup uc)
      (payload_get?_first_name uc),
   Dict.get?_updateWith_present _ d _ _ (payload_keys_nodup uc)
      (payload_get?_last_name uc),
   Dict.get?_updateWith_present _ d _ _ (payload_keys_nodup uc)
      (payload_get?_email uc)⟩

/-- C4: a successful update preserves `id` and `created_at` — even when the
raw request body supplies values for them, since pydantic drops keys outside
`CustomerCreate` — and recomputes `updated_at` to the request time; across two
sequential updates at non-decreasing times the resulting `updated_at` values
are non-decreasing while `created_at` never changes. -/
theorem C4_update_timestamps (now now' : String) (store : Store) (cid : String)
    (b b' : RawCreateBody) (c c' : CustomerCreate) (d : Dict) (ca : String)
    (hb : parseCustomerCreate b = .ok c) (hb' : parseCustomerCreate b' = .ok c')
    (hd : store.get cid = some d)
    (hca : Dict.get? d "created_at" = some (.s ca)) (hne : ca ≠ "")
    (hmono : now ≤ now') :
    ∃ ret s2 ret2 s3,
      bk_update_endpoint now store cid b none = .ok (ret, s2) ∧
      bk_update_endpoint now' s2 cid b' none = .ok (ret2, s3) ∧
      Dict.get? ret "id" = some (.s cid) ∧
      Dict.get? ret "created_at" = some (.s ca) ∧
      Dict.get? ret "updated_at" = some (.s now) ∧
      Dict.get? ret2 "id" = some (.s cid) ∧
      Dict.get? ret2 "created_at" = some (.s ca) ∧
      Dict.get? ret2 "updated_at" = some (.s now') ∧
      (∃ d2, Store.get s2 cid = some d2 ∧
        Dict.get? d2 "created_at" = some (.s ca) ∧
        Dict.get? d2 "updated_at" = some (.s now)) ∧
      now ≤ now' := by
  have huc : (updatedCustomer now cid d c).created_at = ca :=
    updatedCustomer_created_at now cid d c ca hca hne
  have hfields := updated_doc_fields d (updatedCustomer now cid d c)
  have hd2ca : Dict.get? (d.updateWith
      ((updatedCustomer now cid d c).to_dict.filter (fun p => p.1 ≠ "id")))
      "created_at" = some (.s ca) := by
    rw [hfields.1, huc]
  have hd2ua : Dict.get? (d.updateWith
      ((updatedCustomer now cid d c).to_dict.filter (fun p => p.1 ≠ "id")))
      "updated_at" = some (.s now) := hfields.2.1
  have hstep1 : bk_update_endpoint now store cid b none =
      .ok ((updatedCustomer now cid d c).to_dict,
        store.set cid (d.updateWith
          ((updatedCustomer now cid d c).to_dict.filter (fun p => p.1 ≠ "id")))) := by
    simp [bk_update_endpoint, hb, bk_update_eq now store cid c d hd]
  have hget2 : (store.set cid (d.updateWith
      ((updatedCustomer now cid d c).to_dict.filter (fun p => p.1 ≠ "id")))).get cid
      = some (d.updateWith
        ((updatedCustomer now cid d c).to_dict.filter (fun p => p.1 ≠ "id"))) :=
    Store.get_set_self _ _ _
  have huc2 : (updatedCustomer now' cid
      (d.updateWith ((updatedCustomer now cid d c).to_dict.filter
        (fun p => p.1 ≠ "id"))) c').created_at = ca :=
    updatedCustomer_created_at now' cid _ c' ca hd2ca hne
  have hstep2 : bk_update_endpoint now' (store.set cid (d.updateWith
      ((updatedCustomer now cid d c).to_dict.filter (fun p => p.1 ≠ "id"))))
      cid b' none =
      .ok ((updatedCustomer now' cid (d.updateWith
          ((updatedCustomer now cid d c).to_dict.filter (fun p => p.1 ≠ "id"))) c').to_dict,
        (store.set cid (d.updateWith
          ((updatedCustomer now cid d c).to_dict.filter (fun p => p.1 ≠ "id")))).set cid
          ((d.updateWith ((updatedCustomer now cid d c).to_dict.filter
              (fun p => p.1 ≠ "id"))).updateWith
            ((updatedCustomer now' cid (d.updateWith
              ((updatedCustomer now cid d c).to_dict.filter (fun p => p.1 ≠ "id"))) c').to_dict.filter
              (fun p => p.1 ≠ "id")))) := by
    have h := bk_update_eq now' _ cid c' _ hget2
    simpa [bk_update_endpoint, hb'] using h
  refine ⟨_, _, _, _, hstep1, hstep2, rfl, ?_, rfl, rfl, ?_, rfl,
    ⟨_, hget2, hd2ca, hd2ua⟩, hmono⟩
  · rw [to_dict_get?_created_at, huc]
  · rw [to_dict_get?_created_at, huc2]

/-- C4 witness: a concrete pair of sequential updates, with the request body
even supplying `id` and `created_at` values that are ignored. -/
theorem C4_update_timestamps_witness :
    ∃ ret s2 ret2 s3,
      bk_update_endpoint "ta" [("c4", [("first_name", .s "Jane"),
          ("last_name", .s "Doe"), ("email", .s "a@x.com"),
          ("created_at", .s "t0"), ("updated_at", .s "t0")])] "c4"
        { first_name := some (.s "New"), last_name := some (.s "D"),
          email := none, id := some (.s "EVIL"), created_at := some (.s "EVIL") }
        none = .ok (ret, s2) ∧
      bk_update_endpoint "ta" s2 "c4"
        { first_name := some (.s "New2"), last_name := some (.s "D2"),
          email := none, id := none, created_at := none } none = .ok (ret2, s3) ∧
      Dict.get? ret "id" = some (.s "c4") ∧
      Dict.get? ret "created_at" = some (.s "t0") ∧
      Dict.get? ret "updated_at" = some (.s "ta") ∧
      Dict.get? ret2 "id" = some (.s "c4") ∧
      Dict.get? ret2 "created_at" = some (.s "t0") ∧
      Dict.get? ret2 "updated_at" = some (.s "ta") ∧
      (∃ d2, Store.get s2 "c4" = some d2 ∧
        Dict.get? d2 "created_at" = some (.s "t0") ∧
        Dict.get? d2 "updated_at" = some (.s "ta")) ∧
      ("ta" : String) ≤ "ta" :=
  C4_update_timestamps "ta" "ta" _ "c4" _ _
    { first_name := "New", last_name := "D", email := none }
    { first_name := "New2", last_name := "D2", email := none }
    _ "t0" rfl rfl rfl rfl (by decide) (le_refl _)

/-! ## C1: partial-update semantics -/

theorem update_data_get?_name (u : RunCustomerUpdate) :
    Dict.get? u.update_data "name" = u.name.map Val.s := by
  rcases u with ⟨n, e, p, a⟩
  cases n <;> cases e <;> cases p <;> cases a <;> rfl

theorem update_data_get?_email (u : RunCustomerUpdate) :
    Dict.get? u.update_data "email" = u.email.map Val.s := by
  rcases u with ⟨n, e, p, a⟩
  cases n <;> cases e <;> cases p <;> cases a <;> rfl

theorem update_data_get?_phone (u : RunCustomerUpdate) :
    Dict.get? u.update_data "phone" = u.phone.map Val.s := by
  rcases u with ⟨n, e, p, a⟩
  cases n <;> cases e <;> cases p <;> cases a <;> rfl

theorem update_data_get?_address (u : RunCustomerUpdate) :
    Dict.get? u.update_data "address" = u.address.map Val.s := by
  rcases u with ⟨n, e, p, a⟩
  cases n <;> cases e <;> cases p <;> cases a <;> rfl

theorem update_data_keys_nodup (u : RunCustomerUpdate) :
    (u.update_data.map Prod.fst).Nodup := by
  rcases u with ⟨n, e, p, a⟩
  cases n <;> cases e <;> cases p <;> cases a <;>
    simp [RunCustomerUpdate.update_data, RunCustomerUpdate.dictAll, optVal]

/-- The run.py update endpoint, on an existing customer whose stored document
is non-empty (truthy) and with a non-empty update map and the storage calls
succeeding, merges exactly `update_data` into the stored document. -/
theorem run_update_eq (store : Store) (cid : String) (u : RunCustomerUpdate)
    (d : Dict) (hd : store.get cid = some d) (hne : d ≠ [])
    (hu : u.update_data ≠ []) :
    run_update_customer_endpoint (some ()) store cid u none none none =
      .ok (Dict.set (d.updateWith u.update_data) "id" (.s cid),
           store.set cid (d.updateWith u.update_data)) := by
  simp [run_update_customer_endpoint, fb_get_customer, fb_update_customer, hd,
    hne, hu, Store.get_set_self]

/-- A stored backend customer document used in the C1 scenario. -/
def c1_doc : Dict :=
  [("first_name", .s "Old"), ("last_name", .s "Doe"), ("email", .s "a@x.com"),
   ("created_at", .s "t0"), ("updated_at", .s "t0")]

/-- C1 counterexample: in the backend update handler, a body that omits
`email` (`Update(id, {first_name: "New", last_name: "Doe"})`) does not leave
the stored `email = "a@x.com"` untouched — the stored value becomes null. -/
theorem C1_counterexample :
    (bk_update_endpoint "t1" [("c1", c1_doc)] "c1"
        { first_name := some (.s "New"), last_name := some (.s "Doe"),
          email := none, id := none, created_at := none } none).toOption.map
      (fun r => (Store.get r.2 "c1").map (fun d2 => Dict.get? d2 "email"))
      = some (some (some Val.null)) ∧
    (bk_update_endpoint "t1" [("c1", c1_doc)] "c1"
        { first_name := some (.s "New"), last_name := some (.s "Doe"),
          email := none, id := none, created_at := none } none).toOption.map
      (fun r => (Store.get r.2 "c1").map (fun d2 => Dict.get? d2 "email"))
      ≠ some (some (some (Val.s "a@x.com"))) := by
  constructor
  · rfl
  · intro h
    rw [show (bk_update_endpoint "t1" [("c1", c1_doc)] "c1"
        { first_name := some (.s "New"), last_name := some (.s "Doe"),
          email := none, id := none, created_at := none } none).toOption.map
      (fun r => (Store.get r.2 "c1").map (fun d2 => Dict.get? d2 "email"))
      = some (some (some Val.null)) from rfl] at h
    simp at h

/-- C1 (amended): the run.py update endpoint treats a missing or falsy (empty)
stored record as not found (404) and fails with 500 on an all-null update map
(Firestore rejects an empty update); when the stored record is non-empty and
at least one field is supplied with a non-null value, it applies exactly the
keys supplied with non-null values — an omitted or null field leaves the
stored value untouched, a supplied value overwrites it. The backend update
handler instead requires `first_name`/`last_name` and always overwrites
`first_name`, `last_name` and `email` with the input values, storing null for
an omitted `email`. -/
theorem C1_partial_update (store : Store) (cid : String) (u : RunCustomerUpdate)
    (d : Dict) (hd : Store.get store cid = some d) :
    (d = [] → run_update_customer_endpoint (some ()) store cid u none none none =
        .error { status_code := 404
                 detail := "Customer with ID " ++ cid ++ " not found" }) ∧
    (d ≠ [] → u.update_data = [] →
      run_update_customer_endpoint (some ()) store cid u none none none =
        .error { status_code := 500, detail := "Failed to update customer" }) ∧
    (d ≠ [] → u.update_data ≠ [] →
      (∃ ret, run_update_customer_endpoint (some ()) store cid u none none none =
          .ok (ret, store.set cid (d.updateWith u.update_data))) ∧
      Store.get (store.set cid (d.updateWith u.update_data)) cid
          = some (d.updateWith u.update_data) ∧
      (u.name = none →
        Dict.get? (d.updateWith u.update_data) "name" = Dict.get? d "name") ∧
      (∀ v, u.name = some v →
        Dict.get? (d.updateWith u.update_data) "name" = some (.s v)) ∧
      (u.email = none →
        Dict.get? (d.updateWith u.update_data) "email" = Dict.get? d "email") ∧
      (∀ v, u.email = some v →
        Dict.get? (d.updateWith u.update_data) "email" = some (.s v)) ∧
      (u.phone = none →
        Dict.get? (d.updateWith u.update_data) "phone" = Dict.get? d "phone") ∧
      (∀ v, u.phone = some v →
        Dict.get? (d.updateWith u.update_data) "phone" = some (.s v)) ∧
      (u.address = none →
        Dict.get? (d.updateWith u.update_data) "address" = Dict.get? d "address") ∧
      (∀ v, u.address = some v →
        Dict.get? (d.updateWith u.update_data) "address" = some (.s v))) ∧
    (∀ (now : String) (c : CustomerCreate),
      ∃ s2 d2, bk_update_customer now store cid c none =
          .ok ((updatedCustomer now cid d c).to_dict, s2) ∧
        Store.get s2 cid = some d2 ∧
        Dict.get? d2 "email" = some (optVal c.email)) := by
  refine ⟨?_, ?_, ?_, ?_⟩
  · intro h
    subst h
    simp [run_update_customer_endpoint, fb_get_customer, hd]
  · intro hne hu
    simp [run_update_customer_endpoint, fb_get_customer, fb_update_customer,
      hd, hne, hu]
  · intro hne hu
    refine ⟨⟨_, run_update_eq store cid u d hd hne hu⟩, Store.get_set_self _ _ _,
      ?_, ?_, ?_, ?_, ?_, ?_, ?_, ?_⟩
    · intro h
      apply Dict.get?_updateWith_absent
      rw [update_data_get?_name, h]
      rfl
    · intro v h
      apply Dict.get?_updateWith_present _ _ _ _ (update_data_keys_nodup u)
      rw [update_data_get?_name, h]
      rfl
    · intro h
      apply Dict.get?_updateWith_absent
      rw [update_data_get?_email, h]
      rfl
    · intro v h
      apply Dict.get?_updateWith_present _ _ _ _ (update_data_keys_nodup u)
      rw [update_data_get?_email, h]
      rfl
    · intro h
      apply Dict.get?_updateWith_absent
      rw [update_data_get?_phone, h]
      rfl
    · intro v h
      apply Dict.get?_updateWith_present _ _ _ _ (update_data_keys_nodup u)
      rw [update_data_get?_phone, h]
      rfl
    · intro h
      apply Dict.get?_updateWith_absent
      rw [update_data_get?_address, h]
      rfl
    · intro v h
      apply Dict.get?_updateWith_present _ _ _ _ (update_data_keys_nodup u)
      rw [update_data_get?_address, h]
      rfl
  · intro now c
    refine ⟨_, _, bk_update_eq now store cid c d hd, Store.get_set_self _ _ _, ?_⟩
    exact (updated_doc_fields d (updatedCustomer now cid d c)).2.2.2.2

/-- A stored run.py customer document used in the C1 witness. -/
def c1_run_doc : Dict :=
  [("name", .s "Jane"), ("email", .s "a@x.com"), ("phone", .s "555")]

/-- C1 witness: in the run.py variant, updating only `name` on a non-empty
stored record leaves the stored `email = "a@x.com"` untouched and overwrites
`name`. -/
theorem C1_partial_update_witness :
    Dict.get? (c1_run_doc.updateWith
      (RunCustomerUpdate.update_data ⟨some "New", none, none, none⟩)) "email"
      = some (Val.s "a@x.com") ∧
    Dict.get? (c1_run_doc.updateWith
      (RunCustomerUpdate.update_data ⟨some "New", none, none, none⟩)) "name"
      = some (Val.s "New") := by
  have h := C1_partial_update [("r1", c1_run_doc)] "r1"
    ⟨some "New", none, none, none⟩ c1_run_doc rfl
  have h3 := h.2.2.1 (by decide) (by decide)
  exact ⟨(h3.2.2.2.2.1 rfl).trans rfl, h3.2.2.2.1 "New" rfl⟩

/-! ## C3: storage-error translation -/

/-- C3 counterexample: the 500 response produced for a storage exception
embeds the underlying storage-provider error message in its `detail` string —
the internal details do reach the caller. -/
theorem C3_counterexample :
    bk_get_customers "t3" (.err "firestore internal shard error")
      = .error { status_code := 500
                 detail := "Error retrieving customers: firestore internal shard error" } ∧
    strContains "Error retrieving customers: firestore internal shard error"
      "firestore internal shard error" = true := by
  exact ⟨rfl, rfl⟩

/-- C3 (amended): every storage exception raised during a CRUD handler is
caught and translated into a 500 `HTTPException` (no raw exception escapes to
the HTTP layer), but the response's `detail` embeds the storage provider's
error message (`str(e)`) rather than hiding it. -/
theorem C3_error_translation (now e : String) (store : Store)
    (cid newId : String) (c : CustomerCreate) :
    bk_get_customers now (.err e) =
      .error { status_code := 500, detail := "Error retrieving customers: " ++ e } ∧
    bk_get_customer now store cid (some e) =
      .error { status_code := 500, detail := "Error retrieving customer: " ++ e } ∧
    bk_create_customer now newId store c (some e) =
      .error { status_code := 500, detail := "Error creating customer: " ++ e } ∧
    bk_update_customer now store cid c (some e) =
      .error { status_code := 500, detail := "Error updating customer: " ++ e } ∧
    (bk_delete_customer store cid (some e)).1 =
      some { status_code := 500, detail := "Error deleting customer: " ++ e } :=
  ⟨rfl, rfl, rfl, rfl, rfl⟩

/-! ## C8: create validation -/

/-- C8 counterexample: a create body whose `first_name` and `last_name` are
the empty string passes validation and the record is persisted — `Create` does
not reject empty required fields. -/
theorem C8_counterexample :
    bk_create_endpoint "t0" "n1" []
      { first_name := some (.s ""), last_name := some (.s ""),
        email := none, id := none, created_at := none } none =
      .ok ([("id", .s "n1"), ("first_name", .s ""), ("last_name", .s ""),
            ("email", Val.null), ("created_at", .s "t0"), ("updated_at", .s "t0")],
           [("n1", [("first_name", .s ""), ("last_name", .s ""),
            ("email", Val.null), ("created_at", .s "t0"), ("updated_at", .s "t0")])]) := by
  rfl

/-- C8 (amended): create fails with a 422 (4xx) validation error when
`first_name` or `last_name` is missing or null in the body, and no record is
persisted in that case; but an empty string passes validation, and a record
with empty `first_name`/`last_name` is persisted. -/
theorem C8_validation :
    (∀ (b : RawCreateBody) (now cid : String) (store : Store)
      (fail : Option String),
      (b.first_name = none ∨ b.first_name = some Val.null ∨
       b.last_name = none ∨ b.last_name = some Val.null) →
      bk_create_endpoint now cid store b fail =
        .error { status_code := 422, detail := "field required" }) ∧
    (∀ (now cid : String) (store : Store) (fn ln : String),
      ∃ ret s2 payload,
        bk_create_endpoint now cid store
          { first_name := some (.s fn), last_name := some (.s ln),
            email := none, id := none, created_at := none } none = .ok (ret, s2) ∧
        Store.get s2 cid = some payload ∧
        Dict.get? payload "first_name" = some (.s fn) ∧
        Dict.get? payload "last_name" = some (.s ln)) := by
  constructor
  · intro b now cid store fail h
    rcases b with ⟨bf, bl, be, bi, bc⟩
    simp only at h
    rcases h with h | h | h | h
    · subst h
      rcases bl with _ | v
      · rfl
      · rcases v with v | _ <;> rfl
    · subst h
      rcases bl with _ | v
      · rfl
      · rcases v with v | _ <;> rfl
    · subst h
      rcases bf with _ | v
      · rfl
      · rcases v with v | _ <;> rfl
    · subst h
      rcases bf with _ | v
      · rfl
      · rcases v with v | _ <;> rfl
  · intro now cid store fn ln
    refine ⟨_, _, _, rfl, Store.get_set_self _ _ _,
      payload_get?_first_name _, payload_get?_last_name _⟩

/-- C8 witness: a body missing `first_name` is rejected with 422. -/
theorem C8_validation_witness :
    bk_create_endpoint "t0" "n2" []
      { first_name := none, last_name := some (.s "Doe"),
        email := none, id := none, created_at := none } none =
      .error { status_code := 422, detail := "field required" } :=
  C8_validation.1 _ "t0" "n2" [] none (Or.inl rfl)

end TemplateBackend
